import Mathlib

/-!
Shallow embedding of `qinfer/abstract_model.py`: the `Simulatable` / `Model`
capability classes, their call-counting instrumentation, the default
`Model.simulate_experiment` inverse-CDF sampling algorithm, and the
`pr0_to_likelihood_array` static helper.

Conventions of the embedding:

* Probabilities are modelled as exact rationals (`ℚ`); numpy arrays are
  lists.  A likelihood tensor of shape `(n_outcomes, n_models,
  n_experiments)` is a `List (List (List ℚ))` indexed `[outcome][model]
  [experiment]`, matching numpy's C (row-major) order.
* Model parameters are rows `List ℚ`; a batch is `List (List ℚ)`.
  Experiment parameters are a list of descriptors, one `ℚ` per experiment.
* An instance's mutable attribute dictionary is `InstanceState`; a field
  value `none` models a *missing* attribute (Python `AttributeError` on
  read or on `+=`), `some n` a present attribute holding `n`.
* Randomness is externalised: `np.random.random((repeat, 1))` becomes an
  argument `draws : List ℚ` of length `repeat`, one uniform draw per row.
* Fallible Python evaluation (exceptions) is `Option`: `none` means the
  call raised.
-/

/-- `np.cumsum` on a 1-D array: entry `i` is the sum of the first `i + 1`
elements. -/
def np_cumsum (l : List ℚ) : List ℚ :=
  (List.range l.length).map (fun i => (l.take (i + 1)).sum)

/-- C-order flattening of a 3-D tensor, as performed by `np.cumsum` when no
`axis` argument is given (the source line `cdf = np.cumsum(probabilities)`
flattens before summing). -/
def flatten3 (t : List (List (List ℚ))) : List ℚ :=
  t.flatten.flatten

/-- Index of the first entry of `cdf` strictly exceeding `r`, or `none`
when there is none.  `np.argmax` on the boolean mask `cdf > r` returns the
index of the first `True`; on an all-`False` mask it returns `0` (the
caller applies `getD 0`). -/
def np_argmax_gt (r : ℚ) : List ℚ → Option Nat
  | [] => none
  | c :: cs => if r < c then some 0 else (np_argmax_gt r cs).map (· + 1)

/-- One row of `np.argmax(cdf > randnum, axis=1)`: the first index of `cdf`
strictly exceeding the draw `r`, and `0` when no entry exceeds it (numpy's
argmax of an all-`False` mask). -/
def first_exceed (cdf : List ℚ) (r : ℚ) : Nat :=
  (np_argmax_gt r cdf).getD 0

/-- `np.arange(a)` applied to an *array* argument, as in the source line
`np.arange(self.n_outcomes(expparams))`: numpy converts a size-1 array to a
scalar and builds `0, …, n-1`; an array with any other number of entries
raises (`only size-1 arrays can be converted to Python scalars`). -/
def np_arange_of_array : List Nat → Option (List Nat)
  | [n] => some (List.range n)
  | _ => none

/-- The mutable attributes of a model instance.  `none` models an attribute
that was never set (reading it or applying `+=` raises `AttributeError`). -/
structure InstanceState where
  sim_count : Option Nat
  call_count : Option Nat
deriving DecidableEq

/-- `Simulatable.__init__`: sets `self._sim_count = 0` and nothing else. -/
def Simulatable_init : InstanceState :=
  { sim_count := some 0, call_count := none }

/-- `Model.__init__`: sets `self._call_count = 0` and does *not* call
`Simulatable.__init__`, so `_sim_count` stays missing. -/
def Model_init : InstanceState :=
  { sim_count := none, call_count := some 0 }

/-- The state of an instance on which both initializers have effectively
run (`_sim_count = 0` and `_call_count = 0`), i.e. a properly initialised
concrete model. -/
def fully_init : InstanceState :=
  { sim_count := some 0, call_count := some 0 }

/-- The `sim_count` property: `return self._sim_count` (raises when the
attribute is missing). -/
def Simulatable_sim_count (s : InstanceState) : Option Nat :=
  s.sim_count

/-- The `call_count` property: `return self._call_count`. -/
def Model_call_count (s : InstanceState) : Option Nat :=
  s.call_count

/-- The `is_n_outcomes_constant` property of `Simulatable`: always
`False`. -/
def Simulatable_is_n_outcomes_constant : Bool :=
  false

/-- The behaviour a concrete subclass supplies for the abstract methods:
`n_outcomes` (an array with one outcome count per experiment),
the likelihood values themselves, and `are_models_valid`. -/
structure ConcreteModel where
  n_outcomes : List ℚ → List Nat
  likelihood_fn : List Nat → List (List ℚ) → List ℚ → List (List (List ℚ))
  are_models_valid_fn : List (List ℚ) → List Bool

/-- Return value of `Model.simulate_experiment`: `outcomes[0]` (a scalar)
when `repeat == 1`, else the whole array. -/
inductive SimResult where
  | scalar : Nat → SimResult
  | array : List Nat → SimResult
deriving DecidableEq

/-- Body of the abstract `Simulatable.simulate_experiment`:
`self._sim_count += modelparams.shape[0] * expparams.shape[0] * repeat`.
Raises `AttributeError` (`none`) when `_sim_count` was never set. -/
def Simulatable_simulate_increment (s : InstanceState) (nModels nExps rep : Nat) :
    Option InstanceState :=
  match s.sim_count with
  | none => none
  | some sc => some { s with sim_count := some (sc + nModels * nExps * rep) }

/-- `Model.likelihood` as run by a contract-following concrete model: the
abstract body increments `_call_count` by
`outcomes.shape[0] * modelparams.shape[0] * expparams.shape[0]` and the
concrete part returns the likelihood tensor. -/
def Model_likelihood (M : ConcreteModel) (s : InstanceState) (outcomes : List Nat)
    (modelparams : List (List ℚ)) (expparams : List ℚ) :
    Option (InstanceState × List (List (List ℚ))) :=
  match s.call_count with
  | none => none
  | some cc =>
      some ({ s with
                call_count :=
                  some (cc + outcomes.length * modelparams.length * expparams.length) },
            M.likelihood_fn outcomes modelparams expparams)

/-- The default `Model.simulate_experiment`:

    super(Model, self).simulate_experiment(modelparams, expparams, repeat)
    probabilities = self.likelihood(np.arange(self.n_outcomes(expparams)),
                                    modelparams, expparams)
    cdf = np.cumsum(probabilities)
    randnum = np.random.random((repeat, 1))
    outcomes = np.argmax(cdf > randnum, axis=1)
    return outcomes[0] if repeat==1 else outcomes

`draws` stands for the `repeat` uniform draws; `np.cumsum` is applied with
no axis, i.e. to the flattened tensor; `np.argmax` over an empty axis
raises, hence the empty-`cdf` guard. -/
def Model_simulate_experiment (M : ConcreteModel) (s : InstanceState)
    (modelparams : List (List ℚ)) (expparams : List ℚ) (draws : List ℚ) :
    Option (InstanceState × SimResult) :=
  match Simulatable_simulate_increment s modelparams.length expparams.length draws.length with
  | none => none
  | some s1 =>
    match np_arange_of_array (M.n_outcomes expparams) with
    | none => none
    | some outcomeIdxs =>
      match Model_likelihood M s1 outcomeIdxs modelparams expparams with
      | none => none
      | some (s2, probabilities) =>
        let cdf := np_cumsum (flatten3 probabilities)
        if cdf.isEmpty then none
        else
          let outs := draws.map (fun r => first_exceed cdf r)
          some (s2, if draws.length = 1 then SimResult.scalar (outs.headD 0)
                    else SimResult.array outs)

/-- `Model.is_model_valid`:
`return self.are_models_valid(modelparams[np.newaxis, :])[0]` — promote the
vector to a one-row batch, delegate, extract entry `0` (raises when the
result is empty). -/
def Model_is_model_valid (M : ConcreteModel) (v : List ℚ) : Option Bool :=
  (M.are_models_valid_fn [v]).head?

/-- Elementwise `1 - pr0` on a 2-D array. -/
def one_minus (m : List (List ℚ)) : List (List ℚ) :=
  m.map (fun row => row.map (fun x => 1 - x))

/-- `np.concatenate` along axis 0 over a sequence of equally shaped 3-D
arrays: raises `ValueError` (`none`) when the sequence is empty, else
stacks the arrays' leading-axis slabs. -/
def np_concatenate_axis0 (arrays : List (List (List (List ℚ)))) :
    Option (List (List (List ℚ))) :=
  match arrays with
  | [] => none
  | _ => some arrays.flatten

/-- The static helper `Model.pr0_to_likelihood_array`:

    pr0 = pr0[np.newaxis, ...]
    return np.concatenate([
        pr0 if outcomes[idx] == 0 else 1 - pr0
        for idx in xrange(outcomes.shape[0])
        ])

Each comprehension element is the `(1, n_models, n_experiments)` array
`pr0[np.newaxis, ...]` (modelled `[pr0]`) or `1 - pr0` under the same new
axis; `np.concatenate` stacks them along the leading outcome axis and
raises when `outcomes` is empty (empty sequence of arrays). -/
def pr0_to_likelihood_array (outcomes : List Nat) (pr0 : List (List ℚ)) :
    Option (List (List (List ℚ))) :=
  np_concatenate_axis0
    (outcomes.map (fun o => if o = 0 then [pr0] else [one_minus pr0]))

/-- Calling the static method through an instance: a `@staticmethod` body
mentions no `self`, so the instance state is passed through untouched. -/
def static_pr0_call (s : InstanceState) (outcomes : List Nat) (pr0 : List (List ℚ)) :
    InstanceState × Option (List (List (List ℚ))) :=
  (s, pr0_to_likelihood_array outcomes pr0)

/-- Modelled from the spec's words (for comparison with the code): the
outcome the spec's step 3+5 prescribe for one `(model, experiment)` column
`col` of per-outcome probabilities — cumulative sum *along the outcome
axis*, then the smallest outcome index whose cumulative probability
strictly exceeds the draw. -/
def spec_outcome_for_column (col : List ℚ) (r : ℚ) : Option Nat :=
  np_argmax_gt r (np_cumsum col)

/-- Outcome-axis cumulative probability through outcome `j` for a
per-outcome probability assignment `p`. -/
def cdfAt (p : Nat → ℚ) (j : Nat) : ℚ :=
  ((List.range (j + 1)).map p).sum

/-- A sequence of `simulate_experiment` calls threaded through one
instance; each list entry is `(modelparams, expparams, draws)`. -/
def run_sims (M : ConcreteModel) :
    InstanceState → List (List (List ℚ) × List ℚ × List ℚ) → Option InstanceState
  | s, [] => some s
  | s, c :: cs =>
    match Model_simulate_experiment M s c.1 c.2.1 c.2.2 with
    | none => none
    | some (s', _) => run_sims M s' cs

/-- A sequence of `likelihood` calls threaded through one instance; each
list entry is `(outcomes, modelparams, expparams)`. -/
def run_likelihoods (M : ConcreteModel) :
    InstanceState → List (List Nat × List (List ℚ) × List ℚ) → Option InstanceState
  | s, [] => some s
  | s, c :: cs =>
    match Model_likelihood M s c.1 c.2.1 c.2.2 with
    | none => none
    | some (s', _) => run_likelihoods M s' cs

/-- A concrete two-outcome model: every experiment has 2 outcomes, outcome
`0` has probability `3/10` for every model/experiment pair, and every
parameter row whose sum is at most `1` is valid. -/
def twoOutcomeModel : ConcreteModel where
  n_outcomes := fun eps => eps.map (fun _ => 2)
  likelihood_fn := fun outcomes mps eps =>
    outcomes.map (fun o => mps.map (fun _ => eps.map (fun _ =>
      if o = 0 then (3 : ℚ)/10 else (7 : ℚ)/10)))
  are_models_valid_fn := fun rows => rows.map (fun r => if r.sum ≤ 1 then true else false)

/-- A concrete model with an *invalid* likelihood: its two outcome
probabilities sum to `1/2`, not `1`. -/
def badLikelihoodModel : ConcreteModel where
  n_outcomes := fun eps => eps.map (fun _ => 2)
  likelihood_fn := fun outcomes mps eps =>
    outcomes.map (fun o => mps.map (fun _ => eps.map (fun _ =>
      if o = 0 then (2 : ℚ)/10 else (3 : ℚ)/10)))
  are_models_valid_fn := fun rows => rows.map (fun _ => true)

/-! ### Helper lemmas about the numpy primitives -/

theorem np_argmax_gt_eq_none (r : ℚ) :
    ∀ (l : List ℚ), (np_argmax_gt r l = none ↔ ∀ c ∈ l, c ≤ r)
  | [] => by simp [np_argmax_gt]
  | c :: cs => by
    by_cases h : r < c
    · simp [np_argmax_gt, h]
    · simp [np_argmax_gt, h, np_argmax_gt_eq_none r cs, not_lt.1 h]

theorem np_argmax_gt_spec (r : ℚ) :
    ∀ (l : List ℚ) (k : Nat), np_argmax_gt r l = some k →
      ∃ c, l[k]? = some c ∧ r < c ∧ ∀ j, j < k → ∃ d, l[j]? = some d ∧ d ≤ r
  | [], k => by simp [np_argmax_gt]
  | c :: cs, k => by
    intro h
    by_cases hrc : r < c
    · simp [np_argmax_gt, hrc] at h
      subst h
      exact ⟨c, by simp, hrc, fun j hj => absurd hj (Nat.not_lt_zero j)⟩
    · simp [np_argmax_gt, hrc] at h
      obtain ⟨k', hk', rfl⟩ := h
      obtain ⟨c', hc', hrc', hmin⟩ := np_argmax_gt_spec r cs k' hk'
      refine ⟨c', by simpa using hc', hrc', fun j hj => ?_⟩
      cases j with
      | zero => exact ⟨c, by simp, not_lt.1 hrc⟩
      | succ j' =>
        obtain ⟨d, hd, hdr⟩ := hmin j' (Nat.lt_of_succ_lt_succ hj)
        exact ⟨d, by simpa using hd, hdr⟩

theorem np_argmax_gt_of_exists (r : ℚ) :
    ∀ (l : List ℚ), (∃ c ∈ l, r < c) → ∃ k, np_argmax_gt r l = some k
  | [], h => by simp at h
  | c :: cs, h => by
    by_cases hrc : r < c
    · exact ⟨0, by simp [np_argmax_gt, hrc]⟩
    · obtain ⟨d, hd, hrd⟩ := h
      rcases List.mem_cons.1 hd with rfl | hd'
      · exact absurd hrd hrc
      · obtain ⟨k, hk⟩ := np_argmax_gt_of_exists r cs ⟨d, hd', hrd⟩
        exact ⟨k + 1, by simp [np_argmax_gt, hrc, hk]⟩

theorem np_cumsum_length (l : List ℚ) : (np_cumsum l).length = l.length := by
  simp [np_cumsum]

theorem np_cumsum_getElem (l : List ℚ) (i : Nat) (h : i < l.length) :
    (np_cumsum l)[i]? = some ((l.take (i + 1)).sum) := by
  simp [np_cumsum, List.getElem?_map, List.getElem?_range, h]

theorem flatten3_single_pair (p : Nat → ℚ) :
    ∀ (l : List Nat), flatten3 (l.map (fun o => [[p o]])) = l.map p
  | [] => by simp [flatten3]
  | o :: t => by
    have ih := flatten3_single_pair p t
    simp only [flatten3, List.map_cons, List.flatten_cons] at *
    simp [ih]

theorem take_range_map_sum (p : Nat → ℚ) (n j : Nat) (h : j < n) :
    (((List.range n).map p).take (j + 1)).sum = cdfAt p j := by
  rw [← List.map_take, List.take_range, Nat.min_eq_left (Nat.succ_le_of_lt h)]
  rfl

theorem np_arange_of_array_eq_some :
    ∀ (l idxs : List Nat), np_arange_of_array l = some idxs →
      ∃ n, l = [n] ∧ idxs = List.range n
  | [], _ => by simp [np_arange_of_array]
  | [n], idxs => by
    simp only [np_arange_of_array, Option.some.injEq]
    intro h
    exact ⟨n, rfl, h.symm⟩
  | a :: b :: t, _ => by simp [np_arange_of_array]

theorem np_arange_of_array_eq_none (l : List Nat) (h : l.length ≠ 1) :
    np_arange_of_array l = none := by
  match l with
  | [] => rfl
  | [n] => exact absurd rfl h
  | a :: b :: t => rfl

/-! ### Inversion lemmas for the stateful operations -/

theorem Model_likelihood_inv (M : ConcreteModel) (s : InstanceState) (outcomes : List Nat)
    (mps : List (List ℚ)) (eps : List ℚ) (s' : InstanceState) (t : List (List (List ℚ)))
    (h : Model_likelihood M s outcomes mps eps = some (s', t)) :
    ∃ cc, s.call_count = some cc ∧
      s' = ⟨s.sim_count, some (cc + outcomes.length * mps.length * eps.length)⟩ ∧
      t = M.likelihood_fn outcomes mps eps := by
  unfold Model_likelihood at h
  cases hcc : s.call_count with
  | none => rw [hcc] at h; cases h
  | some cc =>
    rw [hcc] at h
    obtain ⟨h1, h2⟩ := Prod.mk.injEq .. ▸ Option.some.injEq .. ▸ h
    exact ⟨cc, rfl, h1.symm, h2.symm⟩

theorem Simulatable_simulate_increment_inv (s : InstanceState) (nModels nExps rep : Nat)
    (s1 : InstanceState)
    (h : Simulatable_simulate_increment s nModels nExps rep = some s1) :
    ∃ sc, s.sim_count = some sc ∧
      s1 = ⟨some (sc + nModels * nExps * rep), s.call_count⟩ := by
  unfold Simulatable_simulate_increment at h
  cases hsc : s.sim_count with
  | none => rw [hsc] at h; cases h
  | some sc =>
    rw [hsc] at h
    exact ⟨sc, rfl, (Option.some.injEq .. ▸ h).symm⟩


theorem Model_simulate_experiment_inv (M : ConcreteModel) (s : InstanceState)
    (mps : List (List ℚ)) (eps : List ℚ) (draws : List ℚ)
    (s' : InstanceState) (res : SimResult)
    (h : Model_simulate_experiment M s mps eps draws = some (s', res)) :
    ∃ sc cc n, s.sim_count = some sc ∧ s.call_count = some cc ∧
      M.n_outcomes eps = [n] ∧
      s' = ⟨some (sc + mps.length * eps.length * draws.length),
            some (cc + n * mps.length * eps.length)⟩ ∧
      np_cumsum (flatten3 (M.likelihood_fn (List.range n) mps eps)) ≠ [] ∧
      res = (if draws.length = 1
             then SimResult.scalar
               ((draws.map (first_exceed
                  (np_cumsum (flatten3 (M.likelihood_fn (List.range n) mps eps))))).headD 0)
             else SimResult.array
               (draws.map (first_exceed
                  (np_cumsum (flatten3 (M.likelihood_fn (List.range n) mps eps)))))) := by
  unfold Model_simulate_experiment at h
  split at h
  · cases h
  rename_i s1 hstep
  obtain ⟨sc, hsc, hs1⟩ := Simulatable_simulate_increment_inv s _ _ _ s1 hstep
  split at h
  · cases h
  rename_i idxs harange
  obtain ⟨n, hn, hidxs⟩ := np_arange_of_array_eq_some _ _ harange
  split at h
  · cases h
  rename_i p s2 t hlik
  obtain ⟨cc, hcc, hs2, ht⟩ := Model_likelihood_inv M s1 idxs mps eps s2 t hlik
  rw [hs1] at hcc
  simp only at hcc
  refine ⟨sc, cc, n, hsc, hcc, hn, ?_⟩
  subst hidxs
  rw [ht] at h
  dsimp only at h
  simp only [List.length_range] at hs2
  rw [hs1] at hs2
  simp only at hs2
  by_cases hemp : (np_cumsum (flatten3 (M.likelihood_fn (List.range n) mps eps))).isEmpty
  · rw [if_pos hemp] at h
    cases h
  · rw [if_neg hemp] at h
    have h' := Option.some.inj h
    have h1 : s2 = s' := congrArg Prod.fst h'
    have h2 := congrArg Prod.snd h'
    refine ⟨by rw [← h1, hs2], fun hc => hemp (by simp [hc]), ?_⟩
    exact h2.symm

theorem Model_simulate_experiment_none_of_bad_arange (M : ConcreteModel) (s : InstanceState)
    (mps : List (List ℚ)) (eps : List ℚ) (draws : List ℚ)
    (h : (M.n_outcomes eps).length ≠ 1) :
    Model_simulate_experiment M s mps eps draws = none := by
  unfold Model_simulate_experiment
  cases hsc : s.sim_count with
  | none => simp [Simulatable_simulate_increment, hsc]
  | some sc =>
    simp [Simulatable_simulate_increment, hsc, np_arange_of_array_eq_none _ h]

theorem Model_simulate_experiment_none_of_missing_sim_count (M : ConcreteModel)
    (s : InstanceState) (mps : List (List ℚ)) (eps : List ℚ) (draws : List ℚ)
    (h : s.sim_count = none) :
    Model_simulate_experiment M s mps eps draws = none := by
  unfold Model_simulate_experiment
  simp [Simulatable_simulate_increment, h]

theorem run_sims_sim_count (M : ConcreteModel) :
    ∀ (calls : List (List (List ℚ) × List ℚ × List ℚ)) (s s' : InstanceState),
      run_sims M s calls = some s' →
      s'.sim_count = Option.map
        (fun c => c + (calls.map (fun t => t.1.length * t.2.1.length * t.2.2.length)).sum)
        s.sim_count
  | [], s, s' => by
    intro h
    simp only [run_sims, Option.some.injEq] at h
    subst h
    cases s.sim_count <;> simp
  | c :: cs, s, s' => by
    intro h
    simp only [run_sims] at h
    cases hstep : Model_simulate_experiment M s c.1 c.2.1 c.2.2 with
    | none => rw [hstep] at h; cases h
    | some p =>
      rw [hstep] at h
      obtain ⟨s1, res⟩ := p
      obtain ⟨sc, cc, n, hsc, hcc, hn, hs1, -, -⟩ :=
        Model_simulate_experiment_inv M s c.1 c.2.1 c.2.2 s1 res hstep
      have ih := run_sims_sim_count M cs s1 s' h
      rw [hs1] at ih
      simp only [Option.map_some'] at ih
      rw [ih, hsc]
      simp [Nat.add_assoc]

theorem run_likelihoods_call_count (M : ConcreteModel) :
    ∀ (calls : List (List Nat × List (List ℚ) × List ℚ)) (s : InstanceState) (cc : Nat),
      s.call_count = some cc →
      ∃ s', run_likelihoods M s calls = some s' ∧
        s'.call_count =
          some (cc + (calls.map (fun t => t.1.length * t.2.1.length * t.2.2.length)).sum) ∧
        s'.sim_count = s.sim_count
  | [], s, cc => by
    intro h
    exact ⟨s, rfl, by simp [h], rfl⟩
  | c :: cs, s, cc => by
    intro h
    have hstep : Model_likelihood M s c.1 c.2.1 c.2.2 =
        some (⟨s.sim_count, some (cc + c.1.length * c.2.1.length * c.2.2.length)⟩,
          M.likelihood_fn c.1 c.2.1 c.2.2) := by
      unfold Model_likelihood
      rw [h]
    obtain ⟨s', hrun, hcc', hsim⟩ :=
      run_likelihoods_call_count M cs
        ⟨s.sim_count, some (cc + c.1.length * c.2.1.length * c.2.2.length)⟩
        (cc + c.1.length * c.2.1.length * c.2.2.length) rfl
    refine ⟨s', ?_, ?_, hsim⟩
    · simp only [run_likelihoods, hstep]
      exact hrun
    · rw [hcc']
      simp [Nat.add_assoc]

/-! ### Claim theorems -/

/-- C2: for every sequence of `k` `simulate_experiment` calls on a properly
initialised instance (counter starting from 0 at construction), the
`sim_count` accessor afterwards equals the sum over the calls of
`n_models_i * n_experiments_i * repeat_i`. -/
theorem C2_sim_count_accumulates (M : ConcreteModel)
    (calls : List (List (List ℚ) × List ℚ × List ℚ)) (s' : InstanceState)
    (h : run_sims M fully_init calls = some s') :
    Simulatable_sim_count s' =
      some ((calls.map (fun t => t.1.length * t.2.1.length * t.2.2.length)).sum) := by
  have hc := run_sims_sim_count M calls fully_init s' h
  simpa [Simulatable_sim_count, fully_init] using hc

/-- Witness for C2: two concrete `simulate_experiment` calls — batch shapes
`(1, 1)` with one repeat and `(2, 1)` with two repeats — leave
`sim_count = 1*1*1 + 2*1*2 = 5`. -/
theorem C2_witness : Simulatable_sim_count ⟨some 5, some 6⟩ = some 5 := by
  have h := C2_sim_count_accumulates twoOutcomeModel
      [([[1/2]], [0], [1/2]), ([[1/2], [2/3]], [0], [1/2, 1/3])] ⟨some 5, some 6⟩
      (by norm_num [run_sims, Model_simulate_experiment, Simulatable_simulate_increment,
        Model_likelihood, np_arange_of_array, twoOutcomeModel, fully_init, np_cumsum, flatten3,
        first_exceed, np_argmax_gt, List.range_succ, List.replicate_succ])
  simpa using h

/-- C3: after `k` calls to `likelihood` on a `Model` instance
(`_call_count` starts at 0 in `Model.__init__`), `call_count` equals the
sum over the calls of `len(outcomes_i) * n_models_i * n_experiments_i`,
using the length of the *requested* outcome array. -/
theorem C3_call_count_accumulates (M : ConcreteModel)
    (calls : List (List Nat × List (List ℚ) × List ℚ)) :
    ∃ s', run_likelihoods M Model_init calls = some s' ∧
      Model_call_count s' =
        some ((calls.map (fun t => t.1.length * t.2.1.length * t.2.2.length)).sum) := by
  obtain ⟨s', hrun, hcc, -⟩ := run_likelihoods_call_count M calls Model_init 0 rfl
  exact ⟨s', hrun, by simpa [Model_call_count] using hcc⟩

/-- C4: `is_model_valid v` equals `are_models_valid` applied to `v`
promoted to a one-row batch with the index-0 entry extracted; whenever
`are_models_valid` is given by a row predicate `p`, `is_model_valid`
returns exactly `p v` — it delegates and reimplements no validity logic. -/
theorem C4_is_model_valid_delegates (M : ConcreteModel) (v : List ℚ) :
    Model_is_model_valid M v = (M.are_models_valid_fn [v]).head? ∧
    ∀ p : List ℚ → Bool, (∀ rows, M.are_models_valid_fn rows = rows.map p) →
      Model_is_model_valid M v = some (p v) := by
  refine ⟨rfl, fun p hp => ?_⟩
  simp [Model_is_model_valid, hp]

/-- Witness for C4: on the concrete model whose row predicate is
`row.sum ≤ 1`, `is_model_valid [1/2]` evaluates to `some true`. -/
theorem C4_witness : Model_is_model_valid twoOutcomeModel [1/2] = some true := by
  have h := (C4_is_model_valid_delegates twoOutcomeModel [1/2]).2
      (fun r => if r.sum ≤ 1 then true else false) (fun rows => rfl)
  rw [h]
  norm_num

/-- On a nonempty outcome array the concatenation succeeds and yields the
per-outcome stack of `pr0` / `1 - pr0` slabs. -/
theorem pr0_to_likelihood_array_eq_some (outcomes : List Nat) (pr0 : List (List ℚ))
    (hne : outcomes ≠ []) :
    pr0_to_likelihood_array outcomes pr0 =
      some (outcomes.map (fun o => if o = 0 then pr0 else one_minus pr0)) := by
  match outcomes with
  | [] => exact absurd rfl hne
  | o :: rest =>
    have hflat : ∀ (l : List Nat),
        (l.map (fun o => if o = 0 then [pr0] else [one_minus pr0])).flatten
          = l.map (fun o => if o = 0 then pr0 else one_minus pr0) := by
      intro l
      induction l with
      | nil => rfl
      | cons a t ih =>
        simp only [List.map_cons, List.flatten_cons, ih]
        by_cases h : a = 0 <;> simp [h]
    simp only [pr0_to_likelihood_array, np_concatenate_axis0, List.map_cons,
      List.flatten_cons, hflat rest]
    by_cases h : o = 0 <;> simp [h]

/-- C5 counterexample: on an empty outcome array the source runs
`np.concatenate` over an empty sequence, which raises `ValueError`, so the
call returns no likelihood tensor at all — contradicting the claim's
universally quantified "returns the tensor whose slice at position i …". -/
theorem C5_counterexample :
    pr0_to_likelihood_array ([] : List Nat) [[(3 : ℚ)/10]] = none ∧
    ∀ t : List (List (List ℚ)),
      pr0_to_likelihood_array ([] : List Nat) [[(3 : ℚ)/10]] ≠ some t := by
  refine ⟨rfl, fun t h => ?_⟩
  simp only [pr0_to_likelihood_array, List.map_nil, np_concatenate_axis0] at h
  cases h

/-- C5 amended: for every *nonempty* outcome-index array,
`pr0_to_likelihood_array` returns the tensor whose slice at position `i`
along the new leading outcome axis is `pr0` when `outcomes[i] = 0` and
`1 - pr0` otherwise (on an empty outcome array `np.concatenate` raises);
in particular `[0]` yields `pr0` under a leading axis of size 1 and `[1]`
yields `1 - pr0`; and calling the static helper leaves the instance state
(hence both instrumentation counters) unchanged. -/
theorem C5_amended_nonempty_stack (outcomes : List Nat) (pr0 : List (List ℚ))
    (hne : outcomes ≠ []) :
    (∃ t, pr0_to_likelihood_array outcomes pr0 = some t ∧
       ∀ i : Nat, t[i]? =
         (outcomes[i]?).map (fun o => if o = 0 then pr0 else one_minus pr0)) ∧
    pr0_to_likelihood_array [0] pr0 = some [pr0] ∧
    pr0_to_likelihood_array [1] pr0 = some [one_minus pr0] ∧
    ∀ s : InstanceState, (static_pr0_call s outcomes pr0).1 = s := by
  refine ⟨⟨_, pr0_to_likelihood_array_eq_some outcomes pr0 hne, fun i => ?_⟩,
    ?_, ?_, fun s => rfl⟩
  · simp [List.getElem?_map]
  · rw [pr0_to_likelihood_array_eq_some [0] pr0 (by simp)]
    simp
  · rw [pr0_to_likelihood_array_eq_some [1] pr0 (by simp)]
    simp

/-- Witness for C5's amended theorem at the concrete call
`pr0_to_likelihood_array [0, 1] [[3/10]]`. -/
theorem C5_witness :
    (∃ t, pr0_to_likelihood_array [0, 1] [[(3 : ℚ)/10]] = some t ∧
       ∀ i : Nat, t[i]? =
         (([0, 1] : List Nat)[i]?).map
           (fun o => if o = 0 then [[(3 : ℚ)/10]] else one_minus [[(3 : ℚ)/10]])) ∧
    pr0_to_likelihood_array [0] [[(3 : ℚ)/10]] = some [[[(3 : ℚ)/10]]] ∧
    pr0_to_likelihood_array [1] [[(3 : ℚ)/10]] = some [one_minus [[(3 : ℚ)/10]]] ∧
    ∀ s : InstanceState, (static_pr0_call s [0, 1] [[(3 : ℚ)/10]]).1 = s := by
  exact C5_amended_nonempty_stack [0, 1] [[(3 : ℚ)/10]] (by simp)

/-- C10: `Model.__init__` sets only `_call_count` and never runs
`Simulatable.__init__`, so on an instance constructed solely through it the
`sim_count` accessor raises (`none`) and any `simulate_experiment` call —
whose first step is `_sim_count += …` — raises as well, instead of
counting from 0. -/
theorem C10_missing_sim_count_attribute (M : ConcreteModel)
    (mps : List (List ℚ)) (eps : List ℚ) (draws : List ℚ) :
    Simulatable_sim_count Model_init = none ∧
    Model_call_count Model_init = some 0 ∧
    Model_simulate_experiment M Model_init mps eps draws = none := by
  exact ⟨rfl, rfl,
    Model_simulate_experiment_none_of_missing_sim_count M Model_init mps eps draws rfl⟩

theorem C1_counterexample :
    Model_simulate_experiment twoOutcomeModel fully_init [[1/2], [2/3]] [0] [9/10]
        = some (⟨some 2, some 4⟩, SimResult.scalar 2) ∧
    spec_outcome_for_column [3/10, 7/10] (9/10) = some 1 ∧
    SimResult.scalar 2 ≠ SimResult.scalar 1 := by
  refine ⟨?_, ?_, by simp⟩
  · norm_num [Model_simulate_experiment, Simulatable_simulate_increment, Model_likelihood,
      np_arange_of_array, twoOutcomeModel, fully_init, np_cumsum, flatten3, first_exceed,
      np_argmax_gt, List.range_succ, List.replicate_succ]
  · norm_num [spec_outcome_for_column, np_cumsum, np_argmax_gt, List.range_succ]

theorem C1_amended_single_pair_inverse_cdf (M : ConcreteModel) (s : InstanceState)
    (mp : List ℚ) (ep r : ℚ) (p : Nat → ℚ) (n : Nat) (s' : InstanceState) (k : Nat)
    (hn : M.n_outcomes [ep] = [n])
    (hlike : M.likelihood_fn (List.range n) [mp] [ep] = (List.range n).map (fun o => [[p o]]))
    (hrun : Model_simulate_experiment M s [mp] [ep] [r] = some (s', SimResult.scalar k))
    (hex : ∃ j, j < n ∧ r < cdfAt p j) :
    k < n ∧ r < cdfAt p k ∧ ∀ j, j < k → cdfAt p j ≤ r := by
  obtain ⟨sc, cc, n', hsc, hcc, hn', hs', hne, hres⟩ :=
    Model_simulate_experiment_inv M s [mp] [ep] [r] s' (SimResult.scalar k) hrun
  rw [hn] at hn'
  injection hn' with hnn
  subst hnn
  rw [hlike, flatten3_single_pair] at hres
  simp only [List.length_singleton, if_pos rfl, List.map_cons, List.map_nil,
    List.headD_cons] at hres
  injection hres with hk
  -- hk : k = first_exceed (np_cumsum ((List.range n).map p)) r
  have hLlen : ((List.range n).map p).length = n := by simp
  have hcdlen : (np_cumsum ((List.range n).map p)).length = n := by
    rw [np_cumsum_length, hLlen]
  have hentry : ∀ j, j < n →
      (np_cumsum ((List.range n).map p))[j]? = some (cdfAt p j) := by
    intro j hj
    rw [np_cumsum_getElem _ j (by rw [hLlen]; exact hj), take_range_map_sum p n j hj]
  obtain ⟨j0, hj0, hrj0⟩ := hex
  have hmem : cdfAt p j0 ∈ np_cumsum ((List.range n).map p) :=
    List.getElem?_mem (hentry j0 hj0)
  obtain ⟨k0, hk0⟩ := np_argmax_gt_of_exists r _ ⟨cdfAt p j0, hmem, hrj0⟩
  have hkk : k = k0 := by rw [hk, first_exceed, hk0]; rfl
  subst hkk
  obtain ⟨c, hck, hrc, hmin⟩ := np_argmax_gt_spec r _ k hk0
  have hklt : k < n := by
    by_contra hge
    rw [List.getElem?_eq_none (by rw [hcdlen]; exact Nat.le_of_not_lt hge)] at hck
    cases hck
  have hc : c = cdfAt p k := by
    have := hentry k hklt
    rw [hck] at this
    exact Option.some.inj this
  refine ⟨hklt, hc ▸ hrc, fun j hj => ?_⟩
  obtain ⟨d, hd, hdr⟩ := hmin j hj
  have hjn : j < n := Nat.lt_trans hj hklt
  have := hentry j hjn
  rw [hd] at this
  rw [Option.some.inj this] at hdr
  exact hdr

/-- Witness for C1's amended theorem: a single (model, experiment) pair
with outcome probabilities `(3/10, 7/10)` and draw `1/2` yields outcome 1,
the smallest index whose cumulative probability exceeds the draw. -/
theorem C1_amended_witness :
    (1 : Nat) < 2 ∧
    (1 : ℚ)/2 < cdfAt (fun o => if o = 0 then (3 : ℚ)/10 else 7/10) 1 ∧
    ∀ j, j < 1 → cdfAt (fun o => if o = 0 then (3 : ℚ)/10 else 7/10) j ≤ 1/2 := by
  exact C1_amended_single_pair_inverse_cdf twoOutcomeModel fully_init [1/2] 0 (1/2)
    (fun o => if o = 0 then (3 : ℚ)/10 else 7/10) 2 ⟨some 1, some 2⟩ 1
    rfl
    rfl
    (by norm_num [Model_simulate_experiment, Simulatable_simulate_increment, Model_likelihood,
      np_arange_of_array, twoOutcomeModel, fully_init, np_cumsum, flatten3, first_exceed,
      np_argmax_gt, List.range_succ, List.replicate_succ])
    ⟨1, by norm_num, by norm_num [cdfAt, List.range_succ]⟩

/-- C6 counterexample: one default `simulate_experiment` call on a properly
initialised instance changes `call_count` from 0 to 2 (via the inner
`likelihood` call), so `sim_count` is not the only state mutated. -/
theorem C6_counterexample :
    Model_simulate_experiment twoOutcomeModel fully_init [[1/2]] [0] [1/2]
      = some (⟨some 1, some 2⟩, SimResult.scalar 1) ∧
    Model_call_count ⟨some 1, some 2⟩ ≠ Model_call_count fully_init := by
  refine ⟨?_, by simp [Model_call_count, fully_init]⟩
  norm_num [Model_simulate_experiment, Simulatable_simulate_increment, Model_likelihood,
    np_arange_of_array, twoOutcomeModel, fully_init, np_cumsum, flatten3, first_exceed,
    np_argmax_gt, List.range_succ, List.replicate_succ]

/-- C6 amended: a successful default `simulate_experiment` call mutates the
instance state exactly by `sim_count += n_models * n_experiments * repeat`
*and* `call_count += n_outcomes * n_models * n_experiments` (the latter via
the internal `likelihood` call); nothing else changes. -/
theorem C6_amended_frame (M : ConcreteModel) (s : InstanceState)
    (mps : List (List ℚ)) (eps : List ℚ) (draws : List ℚ)
    (s' : InstanceState) (res : SimResult)
    (h : Model_simulate_experiment M s mps eps draws = some (s', res)) :
    ∃ sc cc n, s.sim_count = some sc ∧ s.call_count = some cc ∧
      M.n_outcomes eps = [n] ∧
      s' = ⟨some (sc + mps.length * eps.length * draws.length),
            some (cc + n * mps.length * eps.length)⟩ := by
  obtain ⟨sc, cc, n, h1, h2, h3, h4, -, -⟩ :=
    Model_simulate_experiment_inv M s mps eps draws s' res h
  exact ⟨sc, cc, n, h1, h2, h3, h4⟩

/-- Witness for C6's amended theorem at a concrete call: the state goes
from `(0, 0)` to `(1, 2)`. -/
theorem C6_witness :
    ∃ sc cc n, fully_init.sim_count = some sc ∧ fully_init.call_count = some cc ∧
      twoOutcomeModel.n_outcomes [0] = [n] ∧
      (⟨some 1, some 2⟩ : InstanceState) =
        ⟨some (sc + 1 * 1 * 1), some (cc + n * 1 * 1)⟩ := by
  have h := C6_amended_frame twoOutcomeModel fully_init [[1/2]] [0] [1/2] ⟨some 1, some 2⟩
      (SimResult.scalar 1)
      (by norm_num [Model_simulate_experiment, Simulatable_simulate_increment, Model_likelihood,
        np_arange_of_array, twoOutcomeModel, fully_init, np_cumsum, flatten3, first_exceed,
        np_argmax_gt, List.range_succ, List.replicate_succ])
  simpa using h

/-- C7 counterexample: with a batch of two experiments — both with a
well-defined outcome count of 2 — the default `simulate_experiment` raises
(`np.arange` cannot convert the length-2 `n_outcomes` array to a scalar)
instead of running with the first experiment's count. -/
theorem C7_counterexample :
    twoOutcomeModel.n_outcomes [0, 1] = [2, 2] ∧
    Model_simulate_experiment twoOutcomeModel fully_init [[1/2]] [0, 1] [1/2] = none := by
  refine ⟨rfl, ?_⟩
  norm_num [Model_simulate_experiment, Simulatable_simulate_increment,
    np_arange_of_array, twoOutcomeModel, fully_init, List.replicate_succ]

/-- C7 amended: the default algorithm assumes a uniform outcome count in
the sense that it only ever runs when the `n_outcomes` array has exactly
one entry `n` (a single experiment, whose count is then used as the full
outcome range `0 .. n-1` for the `likelihood` call); with any other number
of experiments the `np.arange` conversion raises — all while
`is_n_outcomes_constant` is `False`. -/
theorem C7_amended_uniform_count :
    Simulatable_is_n_outcomes_constant = false ∧
    ∀ (M : ConcreteModel) (s : InstanceState) (mps : List (List ℚ)) (eps draws : List ℚ),
      ((M.n_outcomes eps).length ≠ 1 →
        Model_simulate_experiment M s mps eps draws = none) ∧
      ∀ (s' : InstanceState) (res : SimResult),
        Model_simulate_experiment M s mps eps draws = some (s', res) →
        ∃ n, M.n_outcomes eps = [n] ∧
          Model_call_count s' =
            Option.map (fun cc => cc + n * mps.length * eps.length) (Model_call_count s) := by
  refine ⟨rfl, fun M s mps eps draws =>
    ⟨fun h => Model_simulate_experiment_none_of_bad_arange M s mps eps draws h,
     fun s' res h => ?_⟩⟩
  obtain ⟨sc, cc, n, h1, h2, h3, h4, -, -⟩ :=
    Model_simulate_experiment_inv M s mps eps draws s' res h
  exact ⟨n, h3, by simp [Model_call_count, h4, h2]⟩

/-- Witness for C7's amended theorem on the success side: a single
experiment with outcome count 2 runs and bumps `call_count` by
`2 * 1 * 1`. -/
theorem C7_witness :
    ∃ n, twoOutcomeModel.n_outcomes [0] = [n] ∧
      Model_call_count ⟨some 1, some 2⟩ =
        Option.map (fun cc => cc + n * 1 * 1) (Model_call_count fully_init) := by
  have h := (C7_amended_uniform_count.2 twoOutcomeModel fully_init [[1/2]] [0] [1/2]).2
      ⟨some 1, some 2⟩ (SimResult.scalar 1)
      (by norm_num [Model_simulate_experiment, Simulatable_simulate_increment, Model_likelihood,
        np_arange_of_array, twoOutcomeModel, fully_init, np_cumsum, flatten3, first_exceed,
        np_argmax_gt, List.range_succ, List.replicate_succ])
  simpa using h

/-- C8: on a single (model, experiment) pair the default
`simulate_experiment` returns a scalar outcome when `repeat = 1` and an
array of `repeat` outcomes when `repeat > 1`. -/
theorem C8_repeat_shape (M : ConcreteModel) (s : InstanceState) (mp : List ℚ) (ep : ℚ)
    (draws : List ℚ) (s' : InstanceState) (res : SimResult)
    (h : Model_simulate_experiment M s [mp] [ep] draws = some (s', res)) :
    (draws.length = 1 → ∃ k, res = SimResult.scalar k) ∧
    (1 < draws.length → ∃ outs, res = SimResult.array outs ∧ outs.length = draws.length) := by
  obtain ⟨sc, cc, n, -, -, -, -, -, hres⟩ :=
    Model_simulate_experiment_inv M s [mp] [ep] draws s' res h
  constructor
  · intro h1
    rw [if_pos h1] at hres
    exact ⟨_, hres⟩
  · intro h1
    rw [if_neg (by omega)] at hres
    exact ⟨_, hres, by simp⟩

/-- Witness for C8: a 1-repeat concrete run returns a scalar and a
2-repeat concrete run returns a length-2 array. -/
theorem C8_witness :
    (∃ k, SimResult.scalar 1 = SimResult.scalar k) ∧
    (∃ outs, SimResult.array [1, 1] = SimResult.array outs ∧ outs.length = 2) := by
  constructor
  · exact (C8_repeat_shape twoOutcomeModel fully_init [1/2] 0 [1/2] ⟨some 1, some 2⟩
      (SimResult.scalar 1)
      (by norm_num [Model_simulate_experiment, Simulatable_simulate_increment, Model_likelihood,
        np_arange_of_array, twoOutcomeModel, fully_init, np_cumsum, flatten3, first_exceed,
        np_argmax_gt, List.range_succ, List.replicate_succ])).1 rfl
  · have h := (C8_repeat_shape twoOutcomeModel fully_init [1/2] 0 [1/2, 1/3] ⟨some 2, some 2⟩
      (SimResult.array [1, 1])
      (by norm_num [Model_simulate_experiment, Simulatable_simulate_increment, Model_likelihood,
        np_arange_of_array, twoOutcomeModel, fully_init, np_cumsum, flatten3, first_exceed,
        np_argmax_gt, List.range_succ, List.replicate_succ])).2 (by norm_num)
    exact h

/-- C9 counterexample: an invalid likelihood summing to `1/2` and a draw of
`9/10` that no cumulative entry exceeds is *silently absorbed*: the call
succeeds and returns outcome index 0, a valid in-range index (0 < 2), with
no exception and no out-of-range index. -/
theorem C9_counterexample :
    Model_simulate_experiment badLikelihoodModel fully_init [[1/2]] [0] [9/10]
      = some (⟨some 1, some 2⟩, SimResult.scalar 0) ∧
    np_cumsum (flatten3 (badLikelihoodModel.likelihood_fn [0, 1] [[1/2]] [0])) = [1/5, 1/2] ∧
    (0 : Nat) < 2 := by
  refine ⟨?_, ?_, by norm_num⟩
  · norm_num [Model_simulate_experiment, Simulatable_simulate_increment, Model_likelihood,
      np_arange_of_array, badLikelihoodModel, fully_init, np_cumsum, flatten3, first_exceed,
      np_argmax_gt, List.range_succ, List.replicate_succ]
  · norm_num [badLikelihoodModel, np_cumsum, flatten3, List.replicate_succ, List.range_succ]

/-- C9 amended: no active check is performed, and when no cumulative
probability exceeds the draw (the invalid-likelihood anomaly), the
`np.argmax` of an all-`False` mask makes the call return outcome index 0 —
silently absorbed into a valid outcome index rather than an out-of-range
index or exception. -/
theorem C9_amended_silent_zero (M : ConcreteModel) (s : InstanceState)
    (mps : List (List ℚ)) (eps : List ℚ) (r : ℚ) (n : Nat)
    (s' : InstanceState) (res : SimResult)
    (hn : M.n_outcomes eps = [n])
    (hcdf : ∀ c ∈ np_cumsum (flatten3 (M.likelihood_fn (List.range n) mps eps)), c ≤ r)
    (hrun : Model_simulate_experiment M s mps eps [r] = some (s', res)) :
    res = SimResult.scalar 0 := by
  obtain ⟨sc, cc, n', hsc, hcc, hn', hs', hne, hres⟩ :=
    Model_simulate_experiment_inv M s mps eps [r] s' res hrun
  rw [hn] at hn'
  injection hn' with hnn
  subst hnn
  simp only [List.length_singleton, if_pos rfl, if_true, List.map_cons, List.map_nil,
    List.headD_cons] at hres
  rw [hres]
  simp only [first_exceed, (np_argmax_gt_eq_none r _).2 hcdf, Option.getD_none, if_true]

/-- Witness for C9's amended theorem at the concrete invalid-likelihood
run. -/
theorem C9_witness : SimResult.scalar 0 = SimResult.scalar 0 := by
  exact C9_amended_silent_zero badLikelihoodModel fully_init [[1/2]] [0] (9/10) 2
    ⟨some 1, some 2⟩ (SimResult.scalar 0) rfl
    (by norm_num [badLikelihoodModel, np_cumsum, flatten3, List.range_succ,
      List.replicate_succ])
    (by norm_num [Model_simulate_experiment, Simulatable_simulate_increment, Model_likelihood,
      np_arange_of_array, badLikelihoodModel, fully_init, np_cumsum, flatten3, first_exceed,
      np_argmax_gt, List.range_succ, List.replicate_succ])
